import Mathlib

/-!
Verification of the interview-bot evaluation workflow.

Shallow embedding of:
* `src/supabase/functions/evaluate-transcript/index.ts` — the `serve`
  handler, `evaluateTranscript` and `storeEvaluationResults`;
* `src/supabase_final_schema.sql` — the shape of the `interviews`,
  `evaluation_results` and `criteria_evaluations` tables;
* `src/frontend/src/components/FileUpload.tsx` (`handleChange`) and
  `src/frontend/src/services/uploadService.ts` (`uploadTranscriptToStorage`,
  `createInterviewRecord`, `uploadTranscript`).

JavaScript numbers appear in two models.  For the handler-level claims
(state transitions, persistence, the NaN case) they are exact rationals
extended with the IEEE special values NaN and ±∞ (`JSNum`, with `nan`,
`posInf`, `negInf`); the values those claims exercise are exactly
representable doubles, so nothing is lost there, and scores arriving
from parsed JSON are always finite since JSON has no literal for NaN or
infinity.  For the score-aggregation arithmetic itself a bit-accurate
binary64 model is used (`rne`, `roundDouble`, `addD`, `mulD`, `divD`,
`sumD`, `overallDouble`): every operation rounds its exact rational
result to 53 significant bits, nearest, ties to even, which is IEEE-754
double arithmetic on the normal range (no value in this development is
subnormal or overflows).  The LLM ("Judge") pipeline inside `evaluateTranscript`
(three OpenAI chat calls plus JSON parsing) is abstracted as a single
`JudgeOutcome` parameter: either the parsed `criteria_evaluations` array
together with the parsed summary object, or a thrown exception with its
message.  Database writes are modelled as pure state updates; the schema
declares no UNIQUE or CHECK constraint on `evaluation_results` or
`criteria_evaluations`, so inserts always succeed, exactly as in the model.
-/

namespace InterviewBot

/-- A JavaScript number: a finite rational, NaN, or a signed infinity. -/
inductive JSNum where
  | num (q : ℚ)
  | nan
  | posInf
  | negInf
deriving DecidableEq, Repr

/-- JavaScript multiplication on numbers (IEEE 754 semantics, signed
zeros ignored: the code never produces a negative zero). -/
def jsMul : JSNum → JSNum → JSNum
  | JSNum.nan, _ => JSNum.nan
  | _, JSNum.nan => JSNum.nan
  | JSNum.num a, JSNum.num b => JSNum.num (a * b)
  | JSNum.posInf, JSNum.num b =>
      if b = 0 then JSNum.nan else if 0 < b then JSNum.posInf else JSNum.negInf
  | JSNum.num a, JSNum.posInf =>
      if a = 0 then JSNum.nan else if 0 < a then JSNum.posInf else JSNum.negInf
  | JSNum.negInf, JSNum.num b =>
      if b = 0 then JSNum.nan else if 0 < b then JSNum.negInf else JSNum.posInf
  | JSNum.num a, JSNum.negInf =>
      if a = 0 then JSNum.nan else if 0 < a then JSNum.negInf else JSNum.posInf
  | JSNum.posInf, JSNum.posInf => JSNum.posInf
  | JSNum.negInf, JSNum.negInf => JSNum.posInf
  | JSNum.posInf, JSNum.negInf => JSNum.negInf
  | JSNum.negInf, JSNum.posInf => JSNum.negInf

/-- JavaScript division on numbers (IEEE 754 semantics; the divisor zero is
the positive zero, the only zero the embedded code can produce). -/
def jsDiv : JSNum → JSNum → JSNum
  | JSNum.nan, _ => JSNum.nan
  | _, JSNum.nan => JSNum.nan
  | JSNum.num a, JSNum.num b =>
      if b = 0 then
        if a = 0 then JSNum.nan else if 0 < a then JSNum.posInf else JSNum.negInf
      else JSNum.num (a / b)
  | JSNum.posInf, JSNum.num b => if 0 ≤ b then JSNum.posInf else JSNum.negInf
  | JSNum.negInf, JSNum.num b => if 0 ≤ b then JSNum.negInf else JSNum.posInf
  | JSNum.num _, JSNum.posInf => JSNum.num 0
  | JSNum.num _, JSNum.negInf => JSNum.num 0
  | JSNum.posInf, JSNum.posInf => JSNum.nan
  | JSNum.negInf, JSNum.negInf => JSNum.nan
  | JSNum.posInf, JSNum.negInf => JSNum.nan
  | JSNum.negInf, JSNum.posInf => JSNum.nan

/-- `Math.round`: rounds half toward positive infinity on finite inputs,
and is the identity on NaN and the infinities. -/
def jsRound : JSNum → JSNum
  | JSNum.num a => JSNum.num ((⌊a + 1/2⌋ : ℤ) : ℚ)
  | x => x

/-- One entry of the Judge's parsed `criteria_evaluations` array
(interface `CriterionEvaluation` in index.ts). -/
structure CriterionEvaluation where
  criterion : String
  score : ℚ
  justification : String
  supporting_quotes : List String
deriving DecidableEq, Repr

/-- The Judge's parsed summary object (summary / strengths / weaknesses). -/
structure SummaryData where
  summary : String
  strengths : List String
  weaknesses : List String
deriving DecidableEq, Repr

/-- Interface `EvaluationResult` in index.ts.  `overall_score` is a
computed JavaScript number and may be NaN. -/
structure EvaluationResult where
  overall_score : JSNum
  summary : String
  strengths : List String
  weaknesses : List String
  criteria_evaluations : List CriterionEvaluation
deriving DecidableEq, Repr

/-- The outcome of the LLM pipeline inside `evaluateTranscript`: the parsed
`evaluationData.criteria_evaluations` array and the parsed summary object,
or an exception (any of the three OpenAI calls throwing, a JSON parse
error, a timeout, a rate limit, ...) with its message. -/
inductive JudgeOutcome where
  | ok (evaluationData : List CriterionEvaluation) (summaryData : SummaryData)
  | failure (msg : String)
deriving DecidableEq, Repr

/-- `evaluateTranscript` (index.ts lines 142-265).  The transcript and
candidate name only feed the prompts of the abstracted LLM calls.  On the
success path the code computes
`overallScore = scores.reduce((sum, score) => sum + score, 0) / scores.length`
and returns it rounded by `Math.round(overallScore * 10) / 10`; there is no
guard against an empty `criteria_evaluations` array and no validation of
the scores.  Every exception is rethrown with the prefix
`Evaluation failed: `. -/
def evaluateTranscript (judge : JudgeOutcome) (_transcript _candidateName : String) :
    Except String EvaluationResult :=
  match judge with
  | JudgeOutcome.failure msg => Except.error ("Evaluation failed: " ++ msg)
  | JudgeOutcome.ok evaluationData summaryData =>
      let scores : List ℚ := evaluationData.map CriterionEvaluation.score
      let overallScore : JSNum :=
        jsDiv (JSNum.num (scores.foldl (fun sum score => sum + score) 0))
          (JSNum.num (scores.length : ℚ))
      Except.ok
        { overall_score := jsDiv (jsRound (jsMul overallScore (JSNum.num 10))) (JSNum.num 10)
          summary := summaryData.summary
          strengths := summaryData.strengths
          weaknesses := summaryData.weaknesses
          criteria_evaluations := evaluationData }

/-- The four values the repository ever writes to `interviews.status`. -/
inductive Status where
  | uploaded
  | processing
  | evaluated
  | error
deriving DecidableEq, Repr

/-- A row of `public.interviews` (the columns the handler reads or
writes; the table has no error-reason column). -/
structure Interview where
  candidate_name : String
  transcript_storage_path : String
  status : Status
deriving DecidableEq, Repr

/-- A row of `public.evaluation_results` for the requested interview
(the columns relevant to the claims; `NUMERIC(3,1)` carries no CHECK
constraint and the column is nullable). -/
structure EvalRow where
  overall_score : JSNum
  summary : String
deriving DecidableEq, Repr

/-- A row of `public.criteria_evaluations` for the requested interview. -/
structure CritRow where
  criterion_name : String
  score : ℚ
deriving DecidableEq, Repr

/-- The database state visible to one `evaluate-transcript` request:
the `interviews` row matching the requested `interview_id` (if any) and
the `evaluation_results` / `criteria_evaluations` rows keyed by that id. -/
structure DB where
  interview : Option Interview
  evaluation_results : List EvalRow
  criteria_evaluations : List CritRow
deriving DecidableEq, Repr

/-- `storeEvaluationResults` (index.ts lines 268-304): one unconditional
insert into `evaluation_results`, then one insert per criterion into
`criteria_evaluations`.  The schema enforces no uniqueness on
`interview_id` and no range on the scores, so both inserts succeed. -/
def storeEvaluationResults (db : DB) (results : EvaluationResult) : DB :=
  { db with
    evaluation_results :=
      db.evaluation_results ++ [⟨results.overall_score, results.summary⟩]
    criteria_evaluations :=
      db.criteria_evaluations ++
        results.criteria_evaluations.map (fun c => ⟨c.criterion, c.score⟩) }

/-- `update({status}).eq('id', interview_id)` on `interviews`. -/
def setStatus (db : DB) (s : Status) : DB :=
  { db with interview := db.interview.map (fun iv => { iv with status := s }) }

/-- What one run of the handler produced: the database afterwards, the
HTTP status code of the response, and how many times the Judge pipeline
(`evaluateTranscript`) was invoked. -/
structure ServeOutcome where
  db : DB
  httpStatus : ℕ
  judgeCalls : ℕ
deriving DecidableEq, Repr

/-- The `serve` handler (index.ts lines 38-139) for a POST request that
carries an `interview_id`.  `transcriptAvailable` models whether the
storage download of `interview.transcript_storage_path` succeeds.  The
handler never inspects the current `status`: whenever the row exists it
unconditionally updates it to `processing`, then runs the pipeline once
(no retry), then inserts the results and updates the status to
`evaluated`.  Any exception from the pipeline or the inserts reaches the
catch block, which only returns a 500 response — it performs no further
database write. -/
def serve (judge : JudgeOutcome) (transcriptAvailable : Bool) (db : DB) : ServeOutcome :=
  match db.interview with
  | none => ⟨db, 404, 0⟩
  | some iv =>
      let db1 := setStatus db Status.processing
      if transcriptAvailable then
        match evaluateTranscript judge "" iv.candidate_name with
        | Except.error _ => ⟨db1, 500, 1⟩
        | Except.ok results =>
            let db2 := storeEvaluationResults db1 results
            ⟨setStatus db2 Status.evaluated, 200, 1⟩
      else ⟨db1, 404, 0⟩

/-- A browser `File` as far as the upload path inspects it: its name and
its size in bytes (the content itself is passed through opaquely). -/
structure FileModel where
  name : String
  size : ℕ
deriving DecidableEq, Repr

/-- What `handleChange` in FileUpload.tsx does with `e.target.files`. -/
inductive UploadAction where
  | processFile (f : FileModel)
  | showError (msg : String)
  | nothing
deriving DecidableEq, Repr

/-- JavaScript `s.endsWith(post)`, modelled on the character lists. -/
def strEndsWith (s post : String) : Bool :=
  post.data.isSuffixOf s.data

/-- JavaScript `s.split(sep)` for a one-character separator, modelled on
the character list. -/
def splitChars (sep : Char) : List Char → List (List Char)
  | [] => [[]]
  | c :: cs =>
      let rest := splitChars sep cs
      if c = sep then [] :: rest
      else
        match rest with
        | [] => [[c]]
        | r :: rs => (c :: r) :: rs

/-- JavaScript `s.replace(/\s+/g, '_')` restricted to spaces (the only
whitespace the repository's candidate names contain): each maximal run
of spaces becomes a single underscore. -/
def collapseSpacesAux : Bool → List Char → List Char
  | _, [] => []
  | inRun, c :: cs =>
      if c = ' ' then
        (if inRun then [] else ['_']) ++ collapseSpacesAux true cs
      else c :: collapseSpacesAux false cs

/-- `handleChange` (FileUpload.tsx lines 40-50): takes `files[0]` and
checks only that its name ends in `.txt` or `.md`; no check of the
candidate name, the size, or whether the file is empty. -/
def handleChange (files : List FileModel) : UploadAction :=
  match files with
  | [] => UploadAction.nothing
  | f :: _ =>
      if strEndsWith f.name ".txt" || strEndsWith f.name ".md" then
        UploadAction.processFile f
      else
        UploadAction.showError "Please upload a .txt or .md file"

/-- State touched by the uploadService path: the set of storage object
paths in the `interview-transcripts` bucket and the `interviews` rows. -/
structure UploadDB where
  storage : List String
  interviews : List Interview
deriving DecidableEq, Repr

/-- The storage path built by `uploadTranscriptToStorage`
(uploadService.ts lines 15-19): timestamp, underscore, candidate name
with whitespace runs collapsed to underscores, dot, the substring of the
file name after its last dot (`file.name.split('.').pop()`).  The
timestamp digits (`new Date().getTime()` interpolated into the template
string) enter as an opaque string. -/
def storagePath (file : FileModel) (candidateName : String) (timestamp : String) : String :=
  let fileExtension := String.mk ((splitChars '.' file.name.data).getLastD [])
  let cleanName := String.mk (collapseSpacesAux false candidateName.data)
  "transcripts/" ++ timestamp ++ "_" ++ cleanName ++ "." ++ fileExtension

/-- `uploadTranscriptToStorage` (uploadService.ts lines 13-36): uploads
with `upsert: false`, so it throws if the path already exists; it
performs no validation of the file or the candidate name. -/
def uploadTranscriptToStorage (file : FileModel) (candidateName : String)
    (timestamp : String) (db : UploadDB) : Except String (UploadDB × String) :=
  let filePath := storagePath file candidateName timestamp
  if filePath ∈ db.storage then Except.error "Duplicate storage path"
  else Except.ok ({ db with storage := db.storage ++ [filePath] }, filePath)

/-- `createInterviewRecord` (uploadService.ts lines 41-73): throws when
no user is authenticated, otherwise inserts an `interviews` row with
status `uploaded` — with no check that the candidate name is non-empty.
The returned number is the index of the new row (standing in for the
generated uuid). -/
def createInterviewRecord (user : Option String) (candidateName filePath : String)
    (db : UploadDB) : Except String (UploadDB × ℕ) :=
  match user with
  | none => Except.error "User not authenticated"
  | some _ =>
      Except.ok
        ({ db with interviews :=
            db.interviews ++ [⟨candidateName, filePath, Status.uploaded⟩] },
          db.interviews.length)

/-- `uploadTranscript` (uploadService.ts lines 98-117): storage upload,
then record creation; returns the new id and the literal status
`uploaded`.  No size bound, no empty-file check, no empty-name check,
no content-type check appears anywhere on this path. -/
def uploadTranscript (user : Option String) (file : FileModel) (candidateName : String)
    (timestamp : String) (db : UploadDB) : Except String (UploadDB × ℕ × Status) :=
  match uploadTranscriptToStorage file candidateName timestamp db with
  | Except.error e => Except.error e
  | Except.ok (db1, filePath) =>
      match createInterviewRecord user candidateName filePath db1 with
      | Except.error e => Except.error e
      | Except.ok (db2, id) => Except.ok (db2, id, Status.uploaded)

/-- The aggregation the spec describes: arithmetic mean of the scores,
rounded to one decimal place (JavaScript `Math.round` rounding, half
toward positive infinity).  Stated from the spec's words, to be compared
with what `evaluateTranscript` computes. -/
def specMeanRounded (scores : List ℚ) : ℚ :=
  ((⌊(scores.sum / (scores.length : ℚ)) * 10 + 1/2⌋ : ℤ) : ℚ) / 10

/-- Round to the nearest integer, ties to even — the IEEE-754 default
rounding, applied on the scaled significand grid. -/
def rne (y : ℚ) : ℤ :=
  if y - (⌊y⌋ : ℚ) < 1/2 then ⌊y⌋
  else if (1:ℚ)/2 < y - (⌊y⌋ : ℚ) then ⌊y⌋ + 1
  else if Even ⌊y⌋ then ⌊y⌋ else ⌊y⌋ + 1

/-- Binary64 rounding of an exact real value: round to 53 significant
bits, nearest, ties to even.  Exact for zero; normal range only (no
value in this development is subnormal or overflows). -/
def roundDouble (x : ℚ) : ℚ :=
  if x = 0 then 0
  else (rne (x * (2:ℚ) ^ ((52:ℤ) - Int.log 2 |x|)) : ℚ) * (2:ℚ) ^ (Int.log 2 |x| - (52:ℤ))

/-- JavaScript `+` on doubles: the exact sum, correctly rounded. -/
def addD (a b : ℚ) : ℚ := roundDouble (a + b)

/-- JavaScript `*` on doubles: the exact product, correctly rounded. -/
def mulD (a b : ℚ) : ℚ := roundDouble (a * b)

/-- JavaScript `/` on doubles: the exact quotient, correctly rounded. -/
def divD (a b : ℚ) : ℚ := roundDouble (a / b)

/-- `scores.reduce((sum, score) => sum + score, 0)` in double
arithmetic: a left-to-right chain of rounded additions. -/
def sumD (scores : List ℚ) : ℚ := scores.foldl addD 0

/-- Lines 249-255 of index.ts in IEEE-754 double semantics: the reduce,
the division by `scores.length`, `Math.round` of the double product with
10 (`Math.round` is specified on the exact value of its double argument,
half toward positive infinity, and its result here is an exactly
representable integer), then the final double division by 10. -/
def overallDouble (scores : List ℚ) : ℚ :=
  divD ((⌊mulD (divD (sumD scores) ((scores.length : ℚ))) 10 + 1/2⌋ : ℚ)) 10

/-- The doubles produced by JSON-parsing the Judge scores 6.65, 5, 6.25
and 4.7, in that order. -/
def judgeScores : List ℚ :=
  [roundDouble 6.65, roundDouble 5, roundDouble 6.25, roundDouble 4.7]

/-- The same four scores with the last two criteria swapped. -/
def judgeScoresSwapped : List ℚ :=
  [roundDouble 6.65, roundDouble 5, roundDouble 4.7, roundDouble 6.25]


/-- Criterion scored 8 by the Judge (Scenario A's stub). -/
def adaCrit8 : CriterionEvaluation := ⟨"Python Proficiency", 8, "Good understanding", []⟩

/-- Criterion scored 6 by the Judge. -/
def sqlCrit6 : CriterionEvaluation := ⟨"SQL Knowledge", 6, "Decent", []⟩

/-- Criterion with the out-of-range score 15 (Scenario C's stub). -/
def crit15 : CriterionEvaluation := ⟨"Python Proficiency", 15, "Out of range", []⟩

/-- A parsed summary object. -/
def sampleSummary : SummaryData := ⟨"Good candidate", ["Python"], ["SQL"]⟩

/-- Database with one interview in state `uploaded` and no results. -/
def dbUploaded : DB := ⟨some ⟨"Ada", "transcripts/1_Ada.txt", Status.uploaded⟩, [], []⟩

/-- Database with one interview in the terminal state `evaluated`. -/
def dbEvaluated : DB := ⟨some ⟨"Ada", "transcripts/1_Ada.txt", Status.evaluated⟩, [], []⟩

/-- Database with one interview in the terminal state `error`. -/
def dbError : DB := ⟨some ⟨"Ada", "transcripts/1_Ada.txt", Status.error⟩, [], []⟩

/-- Database with one interview already in state `processing`. -/
def dbProcessing : DB := ⟨some ⟨"Ada", "transcripts/1_Ada.txt", Status.processing⟩, [], []⟩

/-- A zero-byte file whose name passes the extension check. -/
def emptyFile : FileModel := ⟨"notes.txt", 0⟩

/-- A six-megabyte file, above the advertised 5 MB maximum. -/
def hugeFile : FileModel := ⟨"big.md", 6000000⟩

/-- Upload-side state with empty storage and no interviews. -/
def emptyUploadDB : UploadDB := ⟨[], []⟩

/-- `Array.reduce` over rationals with a running accumulator computes the
sum: the JS `scores.reduce((sum, score) => sum + score, 0)` is the list sum. -/
theorem foldl_add_eq_sum (l : List ℚ) (a : ℚ) :
    l.foldl (fun sum score => sum + score) a = a + l.sum := by
  induction l generalizing a with
  | nil => simp
  | cons x xs ih => simp [ih, add_assoc]

/-- Closed form of the success branch of `evaluateTranscript`. -/
theorem evaluateTranscript_ok (evals : List CriterionEvaluation) (s : SummaryData)
    (t c : String) :
    evaluateTranscript (JudgeOutcome.ok evals s) t c = Except.ok
      { overall_score :=
          jsDiv (jsRound (jsMul (jsDiv (JSNum.num ((evals.map CriterionEvaluation.score).sum))
            (JSNum.num ((evals.length : ℚ)))) (JSNum.num 10))) (JSNum.num 10)
        summary := s.summary
        strengths := s.strengths
        weaknesses := s.weaknesses
        criteria_evaluations := evals } := by
  simp [evaluateTranscript, foldl_add_eq_sum]

/-- Exponent evaluation for the binary64 model: if 2^e ≤ r < 2^(e+1)
then the base-2 integer logarithm of r is e. -/
theorem int_log2_eval (r : ℚ) (e : ℕ) (h1 : (2:ℚ) ^ e ≤ r) (h2 : r < (2:ℚ) ^ (e+1)) :
    Int.log 2 r = e := by
  have hr1 : (1:ℚ) ≤ r := le_trans (one_le_pow₀ (by norm_num)) h1
  rw [Int.log_of_one_le_right _ hr1]
  norm_cast
  apply Nat.log_eq_of_pow_le_of_lt_pow
  · exact Nat.le_floor (by exact_mod_cast h1)
  · exact (Nat.floor_lt (by linarith)).mpr (by exact_mod_cast h2)

/-- Evaluation rule for `roundDouble` on the positive normal range: with
the binade 2^e ≤ x < 2^(e+1) known and the rounded scaled significand m,
the rounded double is m / 2^(52-e). -/
theorem roundDouble_eval (x : ℚ) (e : ℕ) (m : ℤ) (he : e ≤ 52)
    (h1 : (2:ℚ) ^ e ≤ x) (h2 : x < (2:ℚ) ^ (e+1))
    (hm : rne (x * (2:ℚ) ^ (52 - e)) = m) :
    roundDouble x = (m : ℚ) / (2:ℚ) ^ (52 - e) := by
  have hx0 : (0:ℚ) < x := lt_of_lt_of_le (by positivity) h1
  have habs : |x| = x := abs_of_pos hx0
  have hz : (52:ℤ) - (e:ℤ) = ((52 - e : ℕ) : ℤ) := by omega
  have hzp : (2:ℚ) ^ ((52:ℤ) - (e:ℤ)) = (2:ℚ) ^ (52 - e : ℕ) := by
    rw [hz, zpow_natCast]
  have hzn : (2:ℚ) ^ ((e:ℤ) - (52:ℤ)) = ((2:ℚ) ^ (52 - e : ℕ))⁻¹ := by
    rw [show (e:ℤ) - 52 = -((52:ℤ) - (e:ℤ)) by ring, zpow_neg, hzp]
  rw [roundDouble, if_neg (ne_of_gt hx0), habs, int_log2_eval x e h1 h2, hzp, hzn, hm,
    div_eq_mul_inv]

/-- `roundDouble_eval` specialised to a double addition. -/
theorem addD_eval (a b x : ℚ) (e : ℕ) (m : ℤ) (hab : a + b = x) (he : e ≤ 52)
    (h1 : (2:ℚ) ^ e ≤ x) (h2 : x < (2:ℚ) ^ (e+1))
    (hm : rne (x * (2:ℚ) ^ (52 - e)) = m) :
    addD a b = (m : ℚ) / (2:ℚ) ^ (52 - e) := by
  rw [addD, hab]; exact roundDouble_eval x e m he h1 h2 hm

/-- `roundDouble_eval` specialised to a double multiplication. -/
theorem mulD_eval (a b x : ℚ) (e : ℕ) (m : ℤ) (hab : a * b = x) (he : e ≤ 52)
    (h1 : (2:ℚ) ^ e ≤ x) (h2 : x < (2:ℚ) ^ (e+1))
    (hm : rne (x * (2:ℚ) ^ (52 - e)) = m) :
    mulD a b = (m : ℚ) / (2:ℚ) ^ (52 - e) := by
  rw [mulD, hab]; exact roundDouble_eval x e m he h1 h2 hm

/-- `roundDouble_eval` specialised to a double division. -/
theorem divD_eval (a b x : ℚ) (e : ℕ) (m : ℤ) (hab : a / b = x) (he : e ≤ 52)
    (h1 : (2:ℚ) ^ e ≤ x) (h2 : x < (2:ℚ) ^ (e+1))
    (hm : rne (x * (2:ℚ) ^ (52 - e)) = m) :
    divD a b = (m : ℚ) / (2:ℚ) ^ (52 - e) := by
  rw [divD, hab]; exact roundDouble_eval x e m he h1 h2 hm

/-- Rounding an integer to the integer grid is the identity. -/
theorem rne_intCast (m : ℤ) : rne (m : ℚ) = m := by
  norm_num [rne]

/-- Whole numbers below 2^53 are exactly representable doubles. -/
theorem roundDouble_natCast (n : ℕ) (hn : n < 2 ^ 53) :
    roundDouble (n : ℚ) = n := by
  rcases Nat.eq_zero_or_pos n with h0 | hpos
  · subst h0; simp [roundDouble]
  have hne : (n:ℚ) ≠ 0 := by positivity
  have habs : |(n:ℚ)| = (n:ℚ) := abs_of_pos (by positivity)
  have hlog : Int.log 2 ((n:ℚ)) = (Nat.log 2 n : ℤ) := by
    rw [Int.log_natCast]
  have hele : Nat.log 2 n ≤ 52 := by
    have hlt : Nat.log 2 n < 53 := Nat.log_lt_of_lt_pow (Nat.pos_iff_ne_zero.mp hpos) hn
    omega
  have hz : (52:ℤ) - (Nat.log 2 n : ℤ) = ((52 - Nat.log 2 n : ℕ) : ℤ) := by omega
  have hcast : (n:ℚ) * (2:ℚ) ^ ((52:ℤ) - (Nat.log 2 n : ℤ))
      = (((n * 2 ^ (52 - Nat.log 2 n) : ℕ) : ℤ) : ℚ) := by
    rw [hz, zpow_natCast]
    push_cast
    ring
  have hzn : (2:ℚ) ^ ((Nat.log 2 n : ℤ) - (52:ℤ))
      = ((2:ℚ) ^ (52 - Nat.log 2 n : ℕ))⁻¹ := by
    rw [show (Nat.log 2 n : ℤ) - 52 = -((52:ℤ) - (Nat.log 2 n : ℤ)) by ring, zpow_neg, hz,
      zpow_natCast]
  rw [roundDouble, if_neg hne, habs, hlog, hcast, rne_intCast, hzn]
  push_cast
  field_simp

/-- A double reduce over whole-number scores is exact: every partial sum
stays below 2^53, so no addition rounds. -/
theorem sumD_natCast_aux (ns : List ℕ) (a : ℕ) (hb : a + ns.sum < 2 ^ 53) :
    List.foldl addD ((a : ℕ) : ℚ) (ns.map (fun n => ((n : ℕ) : ℚ))) = ((a + ns.sum : ℕ) : ℚ) := by
  induction ns generalizing a with
  | nil => simp
  | cons x xs ih =>
      simp only [List.map_cons, List.foldl_cons]
      have hx : a + x + xs.sum < 2 ^ 53 := by
        simp only [List.sum_cons] at hb; omega
      have hstep : addD ((a : ℕ) : ℚ) ((x : ℕ) : ℚ) = (((a + x : ℕ)) : ℚ) := by
        rw [addD, show ((a : ℚ) + (x : ℚ)) = ((a + x : ℕ) : ℚ) by push_cast; ring]
        exact roundDouble_natCast (a + x) (by omega)
      rw [hstep, ih (a + x) (by omega)]
      congr 1
      simp only [List.sum_cons]
      omega

/-- The double reduce of whole-number scores equals their exact sum. -/
theorem sumD_natCast (ns : List ℕ) (hb : ns.sum < 2 ^ 53) :
    sumD (ns.map (fun n => ((n : ℕ) : ℚ))) = ((ns.sum : ℕ) : ℚ) := by
  have h := sumD_natCast_aux ns 0 (by omega)
  simpa [sumD] using h

/-- The double produced by parsing the literal 6.65. -/
theorem roundDouble_665 : roundDouble 6.65 = 3743617190251725 / 2 ^ 49 := by
  have h := roundDouble_eval 6.65 2 7487234380503450 (by norm_num) (by norm_num) (by norm_num) (by norm_num [rne])
  rw [h]; norm_num

/-- The double produced by parsing the literal 5. -/
theorem roundDouble_5 : roundDouble 5 = 5 := by
  have h := roundDouble_eval 5 2 5629499534213120 (by norm_num) (by norm_num) (by norm_num) (by norm_num [rne])
  rw [h]; norm_num

/-- The double produced by parsing the literal 6.25. -/
theorem roundDouble_625 : roundDouble 6.25 = 25 / 4 := by
  have h := roundDouble_eval 6.25 2 7036874417766400 (by norm_num) (by norm_num) (by norm_num) (by norm_num [rne])
  rw [h]; norm_num

/-- The double produced by parsing the literal 4.7. -/
theorem roundDouble_47 : roundDouble 4.7 = 5291729562160333 / 2 ^ 50 := by
  have h := roundDouble_eval 4.7 2 5291729562160333 (by norm_num) (by norm_num) (by norm_num) (by norm_num [rne])
  rw [h]; norm_num

/-- Double step: addD 0 3743617190251725 / 2 ^ 49. -/
theorem stepA0 : addD (0) (3743617190251725 / 2 ^ 49) = 3743617190251725 / 2 ^ 49 := by
  have h := addD_eval (0) (3743617190251725 / 2 ^ 49) (3743617190251725 / 2 ^ 49) 2 7487234380503450
    (by norm_num) (by norm_num) (by norm_num) (by norm_num) (by norm_num [rne])
  rw [h]; norm_num

/-- Double step: addD 3743617190251725 / 2 ^ 49 5. -/
theorem stepA1 : addD (3743617190251725 / 2 ^ 49) (5) = 6558366957358285 / 2 ^ 49 := by
  have h := addD_eval (3743617190251725 / 2 ^ 49) (5) (6558366957358285 / 2 ^ 49) 3 6558366957358285
    (by norm_num) (by norm_num) (by norm_num) (by norm_num) (by norm_num [rne])
  rw [h]; norm_num

/-- Double step: addD 6558366957358285 / 2 ^ 49 25 / 4. -/
theorem stepA2 : addD (6558366957358285 / 2 ^ 49) (25 / 4) = 2519201041560371 / 2 ^ 47 := by
  have h := addD_eval (6558366957358285 / 2 ^ 49) (25 / 4) (10076804166241485 / 2 ^ 49) 4 5038402083120742
    (by norm_num) (by norm_num) (by norm_num) (by norm_num) (by norm_num [rne, Int.even_iff])
  rw [h]; norm_num

/-- Double step: addD 2519201041560371 / 2 ^ 47 5291729562160333 / 2 ^ 50. -/
theorem stepA3 : addD (2519201041560371 / 2 ^ 47) (5291729562160333 / 2 ^ 50) = 6361334473660825 / 2 ^ 48 := by
  have h := addD_eval (2519201041560371 / 2 ^ 47) (5291729562160333 / 2 ^ 50) (25445337894643301 / 2 ^ 50) 4 6361334473660825
    (by norm_num) (by norm_num) (by norm_num) (by norm_num) (by norm_num [rne])
  rw [h]; norm_num

/-- Double step: divD 6361334473660825 / 2 ^ 48 4. -/
theorem stepA4 : divD (6361334473660825 / 2 ^ 48) (4) = 6361334473660825 / 2 ^ 50 := by
  have h := divD_eval (6361334473660825 / 2 ^ 48) (4) (6361334473660825 / 2 ^ 50) 2 6361334473660825
    (by norm_num) (by norm_num) (by norm_num) (by norm_num) (by norm_num [rne])
  rw [h]; norm_num

/-- Double step: mulD 6361334473660825 / 2 ^ 50 10. -/
theorem stepA5 : mulD (6361334473660825 / 2 ^ 50) (10) = 7951668092076031 / 2 ^ 47 := by
  have h := mulD_eval (6361334473660825 / 2 ^ 50) (10) (31806672368304125 / 2 ^ 49) 5 7951668092076031
    (by norm_num) (by norm_num) (by norm_num) (by norm_num) (by norm_num [rne])
  rw [h]; norm_num

/-- Double step: divD 56 10. -/
theorem stepA6 : divD (56) (10) = 3152519739159347 / 2 ^ 49 := by
  have h := divD_eval (56) (10) (28 / 5) 2 6305039478318694
    (by norm_num) (by norm_num) (by norm_num) (by norm_num) (by norm_num [rne])
  rw [h]; norm_num

/-- Double step: addD 6558366957358285 / 2 ^ 49 5291729562160333 / 2 ^ 50. -/
theorem stepB2 : addD (6558366957358285 / 2 ^ 49) (5291729562160333 / 2 ^ 50) = 2301057934609613 / 2 ^ 47 := by
  have h := addD_eval (6558366957358285 / 2 ^ 49) (5291729562160333 / 2 ^ 50) (18408463476876903 / 2 ^ 50) 4 4602115869219226
    (by norm_num) (by norm_num) (by norm_num) (by norm_num) (by norm_num [rne])
  rw [h]; norm_num

/-- Double step: addD 2301057934609613 / 2 ^ 47 25 / 4. -/
theorem stepB3 : addD (2301057934609613 / 2 ^ 47) (25 / 4) = 3180667236830413 / 2 ^ 47 := by
  have h := addD_eval (2301057934609613 / 2 ^ 47) (25 / 4) (3180667236830413 / 2 ^ 47) 4 6361334473660826
    (by norm_num) (by norm_num) (by norm_num) (by norm_num) (by norm_num [rne])
  rw [h]; norm_num

/-- Double step: divD 3180667236830413 / 2 ^ 47 4. -/
theorem stepB4 : divD (3180667236830413 / 2 ^ 47) (4) = 3180667236830413 / 2 ^ 49 := by
  have h := divD_eval (3180667236830413 / 2 ^ 47) (4) (3180667236830413 / 2 ^ 49) 2 6361334473660826
    (by norm_num) (by norm_num) (by norm_num) (by norm_num) (by norm_num [rne])
  rw [h]; norm_num

/-- Double step: mulD 3180667236830413 / 2 ^ 49 10. -/
theorem stepB5 : mulD (3180667236830413 / 2 ^ 49) (10) = 113 / 2 := by
  have h := mulD_eval (3180667236830413 / 2 ^ 49) (10) (15903336184152065 / 2 ^ 48) 5 7951668092076032
    (by norm_num) (by norm_num) (by norm_num) (by norm_num) (by norm_num [rne, Int.even_iff])
  rw [h]; norm_num

/-- Double step: divD 57 10. -/
theorem stepB6 : divD (57) (10) = 6417629469002957 / 2 ^ 50 := by
  have h := divD_eval (57) (10) (57 / 10) 2 6417629469002957
    (by norm_num) (by norm_num) (by norm_num) (by norm_num) (by norm_num [rne])
  rw [h]; norm_num

/-- The four Judge score doubles, written out. -/
theorem judgeScores_eq :
    judgeScores = [3743617190251725 / 2 ^ 49, 5, 25 / 4, 5291729562160333 / 2 ^ 50] := by
  rw [judgeScores, roundDouble_665, roundDouble_5, roundDouble_625, roundDouble_47]

/-- The same four doubles with the last two criteria swapped. -/
theorem judgeScoresSwapped_eq :
    judgeScoresSwapped = [3743617190251725 / 2 ^ 49, 5, 5291729562160333 / 2 ^ 50, 25 / 4] := by
  rw [judgeScoresSwapped, roundDouble_665, roundDouble_5, roundDouble_625, roundDouble_47]

/-- The pipeline on the order 6.65, 5, 6.25, 4.7 yields the double 5.6
(the tie at the third addition rounds the sum down to even). -/
theorem overallDouble_judgeScores_eq :
    overallDouble judgeScores = 3152519739159347 / 2 ^ 49 := by
  have hsum : sumD judgeScores = 6361334473660825 / 2 ^ 48 := by
    rw [judgeScores_eq, sumD]
    simp only [List.foldl_cons, List.foldl_nil]
    rw [stepA0, stepA1, stepA2, stepA3]
  have hlen : ((judgeScores.length : ℕ) : ℚ) = 4 := by
    rw [judgeScores_eq]; norm_num
  have hround : (⌊(7951668092076031 / 2 ^ 47 : ℚ) + 1/2⌋ : ℚ) = 56 := by norm_num
  rw [overallDouble, hsum, hlen, stepA4, stepA5, hround, stepA6]

/-- The pipeline on the order 6.65, 5, 4.7, 6.25 yields the double 5.7. -/
theorem overallDouble_judgeScoresSwapped_eq :
    overallDouble judgeScoresSwapped = 6417629469002957 / 2 ^ 50 := by
  have hsum : sumD judgeScoresSwapped = 3180667236830413 / 2 ^ 47 := by
    rw [judgeScoresSwapped_eq, sumD]
    simp only [List.foldl_cons, List.foldl_nil]
    rw [stepA0, stepA1, stepB2, stepB3]
  have hlen : ((judgeScoresSwapped.length : ℕ) : ℚ) = 4 := by
    rw [judgeScoresSwapped_eq]; norm_num
  have hround : (⌊(113 / 2 : ℚ) + 1/2⌋ : ℚ) = 57 := by norm_num
  rw [overallDouble, hsum, hlen, stepB4, stepB5, hround, stepB6]

/-- The exact arithmetic mean of the four score doubles, rounded to one
decimal place, is 5.7. -/
theorem specMeanRounded_judgeScores_eq : specMeanRounded judgeScores = 57 / 10 := by
  rw [judgeScores_eq, specMeanRounded]
  norm_num

/-- C1 counterexample: invoking the evaluation handler on an interview in
the terminal state `evaluated` (or `error`) does not leave its status
unchanged — the handler moves it back to `processing`, so the observed
status sequence is not a prefix of [uploaded, processing, evaluated-or-error]. -/
theorem serve_moves_evaluated_back_to_processing :
    (serve (JudgeOutcome.failure "provider outage") true dbEvaluated).db.interview.map
        Interview.status = some Status.processing ∧
    (serve (JudgeOutcome.failure "provider outage") true dbError).db.interview.map
        Interview.status = some Status.processing := by
  constructor <;>
    simp [serve, dbEvaluated, dbError, evaluateTranscript, setStatus]

/-- C1 amended: the handler never inspects the current status.  Whenever
the interview exists it is first moved to `processing` regardless of its
prior state (terminal states included), and the final status of the run
is `processing` (on any failure) or `evaluated` (on success); the handler
never writes `uploaded` or `error`. -/
theorem serve_writes_only_processing_or_evaluated (j : JudgeOutcome) (t : Bool) (db : DB)
    (iv : Interview) (h : db.interview = some iv) :
    (serve j t db).db.interview.map Interview.status = some Status.processing ∨
    (serve j t db).db.interview.map Interview.status = some Status.evaluated := by
  cases t with
  | false => left; simp [serve, h, setStatus]
  | true =>
      cases hE : evaluateTranscript j "" iv.candidate_name with
      | error e => left; simp [serve, h, hE, setStatus]
      | ok r => right; simp [serve, h, hE, setStatus, storeEvaluationResults]

/-- Witness for C1's amended theorem at a concrete interview. -/
theorem serve_writes_only_processing_or_evaluated_witness :
    (serve (JudgeOutcome.failure "w1") true dbUploaded).db.interview.map Interview.status
        = some Status.processing ∨
    (serve (JudgeOutcome.failure "w1") true dbUploaded).db.interview.map Interview.status
        = some Status.evaluated :=
  serve_writes_only_processing_or_evaluated (JudgeOutcome.failure "w1") true dbUploaded
    ⟨"Ada", "transcripts/1_Ada.txt", Status.uploaded⟩ rfl

/-- C2 counterexample: invoking the handler on an interview already in
state `processing` is not a no-op signalling `InvalidStateTransition`
(409): the Judge pipeline is invoked (call count 1) and the request
completes with HTTP 200. -/
theorem serve_invokes_judge_in_processing_state :
    (serve (JudgeOutcome.ok [adaCrit8] sampleSummary) true dbProcessing).judgeCalls = 1 ∧
    (serve (JudgeOutcome.ok [adaCrit8] sampleSummary) true dbProcessing).httpStatus = 200 := by
  constructor <;>
    simp [serve, dbProcessing, evaluateTranscript_ok]

/-- C2 amended: the handler checks only that the interview exists.  A
missing interview yields 404 with no state change and no Judge call; an
existing interview in any state is moved to `processing` and the Judge
pipeline runs exactly once (when the transcript downloads); no 409-style
state-conflict response exists. -/
theorem serve_checks_only_existence (j : JudgeOutcome) (t : Bool) (db : DB) :
    (db.interview = none → serve j t db = ⟨db, 404, 0⟩) ∧
    (∀ iv : Interview, db.interview = some iv →
      (serve j t db).judgeCalls = (if t then 1 else 0) ∧
      (serve j t db).httpStatus ≠ 409) := by
  constructor
  · intro h
    simp [serve, h]
  · intro iv h
    cases t with
    | false => simp [serve, h]
    | true =>
        cases hE : evaluateTranscript j "" iv.candidate_name with
        | error e => simp [serve, h, hE]
        | ok r => simp [serve, h, hE]

/-- Witness for C2's amended theorem at a concrete interview already in
state `processing`. -/
theorem serve_checks_only_existence_witness :
    (serve (JudgeOutcome.failure "w2") true dbProcessing).judgeCalls = (if true then 1 else 0) ∧
    (serve (JudgeOutcome.failure "w2") true dbProcessing).httpStatus ≠ 409 :=
  (serve_checks_only_existence (JudgeOutcome.failure "w2") true dbProcessing).2
    ⟨"Ada", "transcripts/1_Ada.txt", Status.processing⟩ rfl

/-- C3 counterexample: when the Judge fails terminally the interview does
not transition to `error` with a recorded reason — it stays in
`processing`, and the failure is thrown back to the HTTP caller as a 500
rather than being surfaced only on a later status poll. -/
theorem serve_failure_leaves_processing_and_returns_500 :
    (serve (JudgeOutcome.failure "Request timed out") true dbUploaded).db.interview.map
        Interview.status = some Status.processing ∧
    (serve (JudgeOutcome.failure "Request timed out") true dbUploaded).httpStatus = 500 := by
  constructor <;>
    simp [serve, dbUploaded, evaluateTranscript, setStatus]

/-- C3 amended: on any Judge failure the handler leaves the interview in
`processing` (never `error` — the interviews table also has no
error-reason column to record one) and returns the failure synchronously
as an HTTP 500 to the caller. -/
theorem serve_judge_failure_no_error_state (msg : String) (db : DB) (iv : Interview)
    (h : db.interview = some iv) :
    (serve (JudgeOutcome.failure msg) true db).db.interview.map Interview.status
        = some Status.processing ∧
    (serve (JudgeOutcome.failure msg) true db).db.interview.map Interview.status
        ≠ some Status.error ∧
    (serve (JudgeOutcome.failure msg) true db).httpStatus = 500 := by
  refine ⟨?_, ?_, ?_⟩ <;>
    simp [serve, h, evaluateTranscript, setStatus]

/-- Witness for C3's amended theorem at a concrete interview. -/
theorem serve_judge_failure_no_error_state_witness :
    (serve (JudgeOutcome.failure "w3") true dbUploaded).db.interview.map Interview.status
        = some Status.processing ∧
    (serve (JudgeOutcome.failure "w3") true dbUploaded).db.interview.map Interview.status
        ≠ some Status.error ∧
    (serve (JudgeOutcome.failure "w3") true dbUploaded).httpStatus = 500 :=
  serve_judge_failure_no_error_state "w3" dbUploaded
    ⟨"Ada", "transcripts/1_Ada.txt", Status.uploaded⟩ rfl

/-- C4 counterexample: a Judge response with the out-of-range score 15 is
not rejected — the interview ends in `evaluated` (not `error` with a
schema-mismatch reason), an `evaluation_results` row is created, the score
15 is stored, and the Judge pipeline ran once. -/
theorem serve_persists_unvalidated_score15 :
    (serve (JudgeOutcome.ok [crit15] sampleSummary) true dbUploaded).db.interview.map
        Interview.status = some Status.evaluated ∧
    ((serve (JudgeOutcome.ok [crit15] sampleSummary) true dbUploaded).db.criteria_evaluations.map
        CritRow.score) = [15] ∧
    (serve (JudgeOutcome.ok [crit15] sampleSummary) true dbUploaded).db.evaluation_results.length
        = 1 ∧
    (serve (JudgeOutcome.ok [crit15] sampleSummary) true dbUploaded).judgeCalls = 1 := by
  refine ⟨?_, ?_, ?_, ?_⟩ <;>
    simp [serve, dbUploaded, evaluateTranscript_ok, setStatus, storeEvaluationResults, crit15]

/-- C4 amended: the handler performs no validation of the Judge response:
every parsed response — required criteria present or not, scores in range
or not, summary empty or not — is persisted unchanged, the interview ends
in `evaluated`, and the Judge pipeline ran exactly once. -/
theorem serve_accepts_any_parsed_response (evals : List CriterionEvaluation) (s : SummaryData)
    (db : DB) (iv : Interview) (h : db.interview = some iv) :
    (serve (JudgeOutcome.ok evals s) true db).db.interview.map Interview.status
        = some Status.evaluated ∧
    (serve (JudgeOutcome.ok evals s) true db).db.criteria_evaluations
        = db.criteria_evaluations ++ evals.map (fun c => ⟨c.criterion, c.score⟩) ∧
    (serve (JudgeOutcome.ok evals s) true db).judgeCalls = 1 := by
  refine ⟨?_, ?_, ?_⟩ <;>
    simp [serve, h, evaluateTranscript_ok, setStatus, storeEvaluationResults]

/-- Witness for C4's amended theorem at the score-15 stub response. -/
theorem serve_accepts_any_parsed_response_witness :
    (serve (JudgeOutcome.ok [crit15] sampleSummary) true dbUploaded).db.interview.map
        Interview.status = some Status.evaluated ∧
    (serve (JudgeOutcome.ok [crit15] sampleSummary) true dbUploaded).db.criteria_evaluations
        = dbUploaded.criteria_evaluations
          ++ [crit15].map (fun c => ⟨c.criterion, c.score⟩) ∧
    (serve (JudgeOutcome.ok [crit15] sampleSummary) true dbUploaded).judgeCalls = 1 :=
  serve_accepts_any_parsed_response [crit15] sampleSummary dbUploaded
    ⟨"Ada", "transcripts/1_Ada.txt", Status.uploaded⟩ rfl

/-- C5 counterexample: a Judge that fails transiently is not retried up to
a ceiling — the pipeline runs exactly once — and the interview ends in
`processing` (not `error` with a provider-timeout reason); only the
no-EvaluationResult-row part of the claim holds. -/
theorem serve_no_retry_on_timeout :
    (serve (JudgeOutcome.failure "timeout of 30000ms exceeded") true dbUploaded).judgeCalls
        = 1 ∧
    (serve (JudgeOutcome.failure "timeout of 30000ms exceeded") true dbUploaded).db.interview.map
        Interview.status = some Status.processing ∧
    (serve (JudgeOutcome.failure "timeout of 30000ms exceeded") true
        dbUploaded).db.evaluation_results = [] := by
  refine ⟨?_, ?_, ?_⟩ <;>
    simp [serve, dbUploaded, evaluateTranscript, setStatus]

/-- C5 amended: there is no retry policy: every request invokes the Judge
pipeline exactly once; when the pipeline fails (transiently or not) no
EvaluationResult row is created and the interview is left in `processing`,
never `error`. -/
theorem serve_single_judge_attempt (msg : String) (db : DB) (iv : Interview)
    (h : db.interview = some iv) :
    (serve (JudgeOutcome.failure msg) true db).judgeCalls = 1 ∧
    (serve (JudgeOutcome.failure msg) true db).db.evaluation_results
        = db.evaluation_results ∧
    (serve (JudgeOutcome.failure msg) true db).db.interview.map Interview.status
        ≠ some Status.error := by
  refine ⟨?_, ?_, ?_⟩ <;>
    simp [serve, h, evaluateTranscript, setStatus]

/-- Witness for C5's amended theorem at a concrete timing-out Judge. -/
theorem serve_single_judge_attempt_witness :
    (serve (JudgeOutcome.failure "w5") true dbUploaded).judgeCalls = 1 ∧
    (serve (JudgeOutcome.failure "w5") true dbUploaded).db.evaluation_results
        = dbUploaded.evaluation_results ∧
    (serve (JudgeOutcome.failure "w5") true dbUploaded).db.interview.map Interview.status
        ≠ some Status.error :=
  serve_single_judge_attempt "w5" dbUploaded
    ⟨"Ada", "transcripts/1_Ada.txt", Status.uploaded⟩ rfl

/-- C6 counterexample: a per-criterion score of 15 reaches the
persistence step and is stored as 15 (with overall_score 15 as well),
violating 0 ≤ score ≤ 10. -/
theorem stored_score_violates_range :
    ((serve (JudgeOutcome.ok [crit15] sampleSummary) true dbUploaded).db.criteria_evaluations.map
        CritRow.score) = [15] ∧
    ((serve (JudgeOutcome.ok [crit15] sampleSummary) true dbUploaded).db.evaluation_results.map
        EvalRow.overall_score) = [JSNum.num 15] ∧
    ¬ ((15 : ℚ) ≤ 10) := by
  refine ⟨?_, ?_, ?_⟩
  · simp [serve, dbUploaded, evaluateTranscript_ok, setStatus, storeEvaluationResults, crit15]
  · simp [serve, dbUploaded, evaluateTranscript_ok, setStatus, storeEvaluationResults, crit15]
    norm_num [jsDiv, jsMul, jsRound]
  · norm_num

/-- C6 amended: the persistence step applies no range check at all — the
stored per-criterion scores are exactly the Judge-supplied scores and the
stored overall score is exactly the computed one, whatever their values
(the schema's NUMERIC(3,1) likewise carries no [0,10] CHECK constraint). -/
theorem storeEvaluationResults_scores_passthrough (db : DB) (r : EvaluationResult) :
    (storeEvaluationResults db r).criteria_evaluations.map CritRow.score
      = db.criteria_evaluations.map CritRow.score
        ++ r.criteria_evaluations.map CriterionEvaluation.score ∧
    (storeEvaluationResults db r).evaluation_results.map EvalRow.overall_score
      = db.evaluation_results.map EvalRow.overall_score ++ [r.overall_score] := by
  constructor <;>
    simp [storeEvaluationResults, Function.comp]

/-- C7 counterexample: completing the evaluation handler twice for the
same interview produces a second `evaluation_results` row — after two
successful runs the interview is `evaluated` yet two result rows exist. -/
theorem serve_twice_duplicates_result_rows :
    ((serve (JudgeOutcome.ok [adaCrit8] sampleSummary) true
        (serve (JudgeOutcome.ok [adaCrit8] sampleSummary) true
          dbUploaded).db).db.evaluation_results.length = 2) ∧
    ((serve (JudgeOutcome.ok [adaCrit8] sampleSummary) true
        (serve (JudgeOutcome.ok [adaCrit8] sampleSummary) true
          dbUploaded).db).db.interview.map Interview.status = some Status.evaluated) := by
  constructor <;>
    simp [serve, dbUploaded, evaluateTranscript_ok, setStatus, storeEvaluationResults]

/-- C7 amended: every successful handler completion appends one more
`evaluation_results` row for the interview — nothing in the code or the
schema deduplicates on interview_id, so n completions leave n rows. -/
theorem serve_success_appends_result_row (evals : List CriterionEvaluation) (s : SummaryData)
    (db : DB) (iv : Interview) (h : db.interview = some iv) :
    (serve (JudgeOutcome.ok evals s) true db).db.evaluation_results.length
      = db.evaluation_results.length + 1 := by
  simp [serve, h, evaluateTranscript_ok, setStatus, storeEvaluationResults]

/-- Witness for C7's amended theorem at a concrete interview. -/
theorem serve_success_appends_result_row_witness :
    (serve (JudgeOutcome.ok [adaCrit8] sampleSummary) true dbUploaded).db.evaluation_results.length
      = dbUploaded.evaluation_results.length + 1 :=
  serve_success_appends_result_row [adaCrit8] sampleSummary dbUploaded
    ⟨"Ada", "transcripts/1_Ada.txt", Status.uploaded⟩ rfl

/-- C8 counterexample: the Judge scores 6.65, 5, 6.25, 4.7 form the same
multiset in either listed order, yet in IEEE-754 double arithmetic the
computed overall score is the double 5.6 for this order and the double
5.7 with the last two criteria swapped — double addition is not
associative — and the 5.6 value also differs from the arithmetic mean of
the scores rounded to one decimal place, which is 5.7.  So neither the
order-independence nor the mean-rounded equality of the claim holds. -/
theorem overallDouble_order_dependent :
    judgeScores.Perm judgeScoresSwapped ∧
    overallDouble judgeScores ≠ overallDouble judgeScoresSwapped ∧
    overallDouble judgeScores ≠ specMeanRounded judgeScores := by
  refine ⟨?_, ?_, ?_⟩
  · rw [judgeScores, judgeScoresSwapped]
    exact List.Perm.cons _ (List.Perm.cons _ (List.Perm.swap _ _ _))
  · rw [overallDouble_judgeScores_eq, overallDouble_judgeScoresSwapped_eq]; norm_num
  · rw [overallDouble_judgeScores_eq, specMeanRounded_judgeScores_eq]; norm_num

/-- C8 amended: the computed overallScore is the IEEE-754 double
evaluation of Math.round((sum/length)*10)/10 with sum the left-to-right
reduce of the criterion scores; the value is identical regardless of the
order the criteria were supplied in whenever every score is a whole
number with the total below 2^53 (then every partial sum is exactly
representable and the reduce is exact), as with the integer 0-10 scores
the evaluation prompt requests — but not for arbitrary fractional
scores. -/
theorem overallDouble_perm_of_int_scores (ns ns2 : List ℕ) (hp : ns.Perm ns2)
    (hb : ns.sum < 2 ^ 53) :
    overallDouble (ns.map (fun n => ((n : ℕ) : ℚ)))
      = overallDouble (ns2.map (fun n => ((n : ℕ) : ℚ))) := by
  have hb2 : ns2.sum < 2 ^ 53 := hp.sum_eq ▸ hb
  rw [overallDouble, overallDouble, sumD_natCast ns hb, sumD_natCast ns2 hb2]
  simp only [List.length_map]
  rw [hp.sum_eq, hp.length_eq]

/-- Witness for C8's amended theorem at the whole-number scores 8 and 6
supplied in both orders. -/
theorem overallDouble_perm_of_int_scores_witness :
    overallDouble ([8, 6].map (fun n => ((n : ℕ) : ℚ)))
      = overallDouble ([6, 8].map (fun n => ((n : ℕ) : ℚ))) :=
  overallDouble_perm_of_int_scores [8, 6] [6, 8] (List.Perm.swap 6 8 []) (by norm_num)

/-- C9 counterexample: the upload path accepts an empty file, a
six-megabyte file, and an empty candidate name — `handleChange` forwards
both files (its only check is the extension) and `uploadTranscript`
creates an interview record for the empty-name empty-file upload instead
of rejecting it before any record is created. -/
theorem upload_path_accepts_invalid_inputs :
    handleChange [emptyFile] = UploadAction.processFile emptyFile ∧
    handleChange [hugeFile] = UploadAction.processFile hugeFile ∧
    uploadTranscript (some "user-1") emptyFile "" "17" emptyUploadDB
      = Except.ok (⟨["transcripts/17_.txt"], [⟨"", "transcripts/17_.txt", Status.uploaded⟩]⟩,
          0, Status.uploaded) := by
  refine ⟨?_, ?_, ?_⟩ <;> rfl

/-- C9 amended: the only synchronous rejection on the upload path is the
file-extension check in `handleChange`; for any file whose name ends in
.txt or .md, any candidate name (empty included) and any size, the upload
proceeds and creates an interview record in state `uploaded`. -/
theorem upload_validates_only_extension (f : FileModel) (rest : List FileModel)
    (uid candidateName timestamp : String) (db : UploadDB)
    (hfree : storagePath f candidateName timestamp ∉ db.storage) :
    handleChange (f :: rest)
      = (if strEndsWith f.name ".txt" || strEndsWith f.name ".md" then
          UploadAction.processFile f
        else UploadAction.showError "Please upload a .txt or .md file") ∧
    uploadTranscript (some uid) f candidateName timestamp db
      = Except.ok
          ({ storage := db.storage ++ [storagePath f candidateName timestamp],
             interviews := db.interviews ++
               [⟨candidateName, storagePath f candidateName timestamp, Status.uploaded⟩] },
            db.interviews.length, Status.uploaded) := by
  constructor
  · rfl
  · simp [uploadTranscript, uploadTranscriptToStorage, createInterviewRecord, hfree]

/-- Witness for C9's amended theorem: the empty file with an empty
candidate name is accepted and a record is created. -/
theorem upload_validates_only_extension_witness :
    handleChange [emptyFile]
      = (if strEndsWith emptyFile.name ".txt" || strEndsWith emptyFile.name ".md" then
          UploadAction.processFile emptyFile
        else UploadAction.showError "Please upload a .txt or .md file") ∧
    uploadTranscript (some "user-1") emptyFile "" "17" emptyUploadDB
      = Except.ok
          ({ storage := emptyUploadDB.storage ++ [storagePath emptyFile "" "17"],
             interviews := emptyUploadDB.interviews ++
               [⟨"", storagePath emptyFile "" "17", Status.uploaded⟩] },
            emptyUploadDB.interviews.length, Status.uploaded) :=
  upload_validates_only_extension emptyFile [] "user-1" "" "17" emptyUploadDB (by decide)

/-- C10: for a Judge response with an empty criteria_evaluations list the
unguarded division computes 0/0, the overall_score is NaN (no rational
number), and that NaN is passed to the persistence step and stored rather
than rejected. -/
theorem empty_criteria_overall_is_nan (s : SummaryData) (t c : String) (db : DB)
    (iv : Interview) (h : db.interview = some iv) :
    evaluateTranscript (JudgeOutcome.ok [] s) t c
      = Except.ok
          { overall_score := JSNum.nan,
            summary := s.summary,
            strengths := s.strengths,
            weaknesses := s.weaknesses,
            criteria_evaluations := [] } ∧
    (serve (JudgeOutcome.ok [] s) true db).db.evaluation_results.map EvalRow.overall_score
      = db.evaluation_results.map EvalRow.overall_score ++ [JSNum.nan] := by
  constructor
  · rw [evaluateTranscript_ok]
    simp [jsDiv, jsMul, jsRound]
  · simp [serve, h, evaluateTranscript_ok, setStatus, storeEvaluationResults,
      jsDiv, jsMul, jsRound]

/-- Witness for C10 at a concrete interview. -/
theorem empty_criteria_overall_is_nan_witness :
    evaluateTranscript (JudgeOutcome.ok [] sampleSummary) "" ""
      = Except.ok
          { overall_score := JSNum.nan,
            summary := sampleSummary.summary,
            strengths := sampleSummary.strengths,
            weaknesses := sampleSummary.weaknesses,
            criteria_evaluations := [] } ∧
    (serve (JudgeOutcome.ok [] sampleSummary) true dbUploaded).db.evaluation_results.map
        EvalRow.overall_score
      = dbUploaded.evaluation_results.map EvalRow.overall_score ++ [JSNum.nan] :=
  empty_criteria_overall_is_nan sampleSummary "" "" dbUploaded
    ⟨"Ada", "transcripts/1_Ada.txt", Status.uploaded⟩ rfl

end InterviewBot
